import Mathlib

/-!
Verification of the sensAI tutorial material: the two notebooks
(`Intro to sensAI.ipynb`, `Clustering Evaluation.ipynb`) and the tox
configuration. Data frames are embedded as named rational columns over an
integer row index; external library components (scikit-learn estimators,
pandas reductions) are embedded by their documented input/output contracts,
since the spec explicitly excludes re-implementing them.
-/

/-- Data frame embedding: a row index together with named columns of rational
values, mirroring the pandas frames manipulated in the notebooks. -/
structure DataFrame where
  index : List Nat
  cols : List (String × List ℚ)
deriving DecidableEq, Repr

/-- Column lookup, mirroring `df[c]`: the first column named `c`, if any. -/
def DataFrame.getCol (df : DataFrame) (c : String) : Option (List ℚ) :=
  (df.cols.find? fun p => p.1 == c).map Prod.snd

/-- Names of the columns of a data frame, in order. -/
def DataFrame.colNames (df : DataFrame) : List String :=
  df.cols.map Prod.fst

/-- Insertion of a value into a sorted list of rationals. -/
def insertSorted (x : ℚ) : List ℚ → List ℚ
  | [] => [x]
  | y :: ys => if x ≤ y then x :: y :: ys else y :: insertSorted x ys

/-- Insertion sort on rationals, used to embed the sort underlying the pandas
median. -/
def sortRat : List ℚ → List ℚ
  | [] => []
  | x :: xs => insertSorted x (sortRat xs)

/-- Median of a list of rationals, following the contract of the pandas
`Series.median` used in `TaxFraudFeaturegen._fit`: the middle element of the
sorted values for odd length, the mean of the two middle elements for even
length, and undefined (`none`) on empty input. -/
def median (xs : List ℚ) : Option ℚ :=
  let n := xs.length
  if n = 0 then none
  else
    let s := sortRat xs
    if n % 2 = 1 then s.get? (n / 2)
    else do
      let a ← s.get? (n / 2 - 1)
      let b ← s.get? (n / 2)
      pure ((a + b) / 2)

/-- Scikit-learn scaler objects appearing in the notebooks. Their numeric
behaviour is external to the repository (a spec non-goal), so they are
embedded as opaque tags. -/
inductive SKLearnScaler
  | minMaxScaler
  | maxAbsScaler
  | standardScaler
deriving DecidableEq, Repr

/-- Normalisation rule template attached to a feature generator, as used via
`DFTNormalisation.RuleTemplate(transformer=...)` and
`DFTNormalisation.RuleTemplate(skip=True)` in the intro notebook. -/
structure RuleTemplate where
  transformer : Option SKLearnScaler
  skip : Bool
deriving DecidableEq, Repr

/-- Feature generator defined in the intro notebook: compensates the declared
tax for fraud. Fields follow its `__init__` (`value_lied_about`,
`tax_column`, `threshold = None`, and the normalisation rule template passed
to the superclass). -/
structure TaxFraudFeaturegen where
  value_lied_about : ℚ
  tax_column : String
  threshold : Option ℚ
  normalisationRuleTemplate : RuleTemplate
deriving DecidableEq, Repr

/-- Constructor of `TaxFraudFeaturegen` following its `__init__`: the
threshold starts unset and the attached rule template carries a
`MinMaxScaler`. -/
def TaxFraudFeaturegen.make (tax_column : String) (value_lied_about : ℚ) :
    TaxFraudFeaturegen :=
  { value_lied_about := value_lied_about
    tax_column := tax_column
    threshold := none
    normalisationRuleTemplate :=
      { transformer := some SKLearnScaler.minMaxScaler, skip := false } }

/-- Instance of `TaxFraudFeaturegen` with the default arguments of its
`__init__` (`tax_column="tax"`, `value_lied_about=12.0`). -/
def taxFraudFeaturegenDefault : TaxFraudFeaturegen :=
  TaxFraudFeaturegen.make ("tax") 12

/-- Fitting step of `TaxFraudFeaturegen`: `self.threshold =
X[self.tax_column].median()`. Lookup of a missing column or the median of an
empty column is a failure. -/
def TaxFraudFeaturegen._fit (g : TaxFraudFeaturegen) (X : DataFrame) :
    Option TaxFraudFeaturegen :=
  (X.getCol g.tax_column).bind fun xs =>
    (median xs).map fun m => { g with threshold := some m }

/-- Per-value compensation of `TaxFraudFeaturegen`: if `tax >
self.threshold` then `tax - self.value_lied_about` else `tax`. Comparison
against an unset threshold is a failure, as in the source where the
comparison with `None` raises. -/
def TaxFraudFeaturegen.compensate_for_fraud (g : TaxFraudFeaturegen)
    (tax : ℚ) : Option ℚ :=
  g.threshold.map fun th => if th < tax then tax - g.value_lied_about else tax

/-- Generation step of `TaxFraudFeaturegen`: a fresh data frame whose single
column `self.tax_column` is `df[self.tax_column].apply(self.compensate_for_fraud)`;
assigning the mapped series gives the result the index of `df`. -/
def TaxFraudFeaturegen._generate (g : TaxFraudFeaturegen) (df : DataFrame) :
    Option DataFrame :=
  (df.getCol g.tax_column).bind fun s =>
    (s.mapM g.compensate_for_fraud).map fun vals =>
      { index := df.index, cols := [(g.tax_column, vals)] }

/-- Modelled from the spec: `FeatureGeneratorTakeColumns` is library code not
under src/; the notebook describes it as a feature generator that simply
takes the listed columns as they are, with an attached normalisation rule
template. -/
structure FeatureGeneratorTakeColumns where
  columns : List String
  normalisationRuleTemplate : RuleTemplate
deriving Repr

/-- Modelled from the spec: generation step of `FeatureGeneratorTakeColumns`,
extracting the listed columns unchanged from the input frame; a missing
column is a failure. -/
def FeatureGeneratorTakeColumns.generate (fg : FeatureGeneratorTakeColumns)
    (df : DataFrame) : Option DataFrame :=
  (fg.columns.mapM fun c => (df.getCol c).map fun s => (c, s)).map fun cs =>
    { index := df.index, cols := cs }

/-- Feature generator `crime_age_featuregen` of the intro notebook: takes the
columns crim and age with a skip rule template. -/
def crime_age_featuregen : FeatureGeneratorTakeColumns :=
  { columns := [("crim"), ("age")]
    normalisationRuleTemplate := { transformer := none, skip := true } }

/-- Scikit-learn regressor wrapped by `CustomModel`, embedded by its
documented contract: prediction yields one value per input row. The mapping
from a row of features to a value is the external, trained estimator. -/
structure MLPRegressor where
  predictRow : List ℚ → ℚ

/-- Row of a data frame at a position: the value of each column there (a
position past a short column reads as zero; the frames built in the
notebooks have full columns). -/
def DataFrame.row (df : DataFrame) (i : Nat) : List ℚ :=
  df.cols.map fun c => c.2.getD i 0

/-- Rows of a data frame, one per index entry. -/
def DataFrame.rows (df : DataFrame) : List (List ℚ) :=
  (List.range df.index.length).map df.row

/-- Prediction contract of the scikit-learn regressor: one predicted value
per row of the input. -/
def MLPRegressor.predict (m : MLPRegressor) (x : DataFrame) : List ℚ :=
  x.rows.map m.predictRow

/-- Custom vector regression model of the intro notebook, wrapping an
`MLPRegressor`. -/
structure CustomModel where
  model : MLPRegressor

/-- Prediction step of `CustomModel`: `values = self.model.predict(x)` and
`pd.DataFrame({"nox": values}, index=x.index)`. -/
def CustomModel._predict (cm : CustomModel) (x : DataFrame) : DataFrame :=
  { index := x.index, cols := [(("nox"), cm.model.predict x)] }

/-- Modelled from the spec: a normalisation rule collected from the feature
generators (library code not under src/), pairing the columns it governs
with the rule template it was built from. -/
structure NormalisationRule where
  columns : List String
  template : RuleTemplate
deriving DecidableEq, Repr

/-- Modelled from the spec: `DFTNormalisation` is library code not under
src/; the notebook states that it is instantiated from the collected rules
and that, unless `requireAllHandled` is disabled, it raises an error when a
rule for some column is missing. -/
structure DFTNormalisation where
  rules : List NormalisationRule
  requireAllHandled : Bool
deriving DecidableEq, Repr

/-- Columns of a data frame that no rule of the normalisation covers. -/
def DFTNormalisation.unhandledColumns (dft : DFTNormalisation)
    (df : DataFrame) : List String :=
  df.colNames.filter fun c => !(dft.rules.any fun r => decide (c ∈ r.columns))

/-- Modelled from the spec: application of `DFTNormalisation` to a data
frame. With `requireAllHandled` set, an unhandled column is an error;
otherwise the frame is normalised (the numeric scaling itself is performed
by the external scikit-learn transformers, a spec non-goal, so the handled
frame is returned as such). -/
def DFTNormalisation.apply (dft : DFTNormalisation) (df : DataFrame) :
    Except String DataFrame :=
  let unhandled := dft.unhandledColumns df
  if dft.requireAllHandled && !unhandled.isEmpty then
    Except.error ((", ").intercalate unhandled)
  else
    Except.ok df

/-- Metric set computed by an evaluation: named rational scores. -/
abbrev EvalStats := List (String × ℚ)

/-- Modelled from the spec: an evaluator object runs a model against a fixed
dataset supplied at construction and computes a standardized metric set;
the evaluator implementations are library code not under src/. The type is
parametric in the dataset, model and statistics types so that the
unsupervised, supervised and vector-model evaluators are all instances. -/
structure FixedDatasetEvaluator (D M S : Type) where
  dataset : D
  computeMetrics : D → M → S

/-- Modelled from the spec: `evalModel` scores one model against the stored
dataset; the evaluator state after the call is returned alongside the
statistics to make mutation, or its absence, explicit. -/
def FixedDatasetEvaluator.evalModel {D M S : Type}
    (ev : FixedDatasetEvaluator D M S) (m : M) :
    FixedDatasetEvaluator D M S × S :=
  (ev, ev.computeMetrics ev.dataset m)

/-- Point of a coordinate data frame. -/
structure Point where
  x : ℚ
  y : ℚ
deriving DecidableEq, Repr

/-- Modelled from the spec: `SKLearnCoordinateClustering` wraps an external
clustering estimator (library code not under src/); the wrapped algorithm is
embedded as the labelling it induces on a dataset, together with the
`minClusterSize` option used in the notebook. -/
structure SKLearnCoordinateClustering where
  assignLabel : List Point → Point → Int
  minClusterSize : Option Nat

/-- Fitted state of a coordinate clustering model: the datapoints it was
fitted on and the labels assigned to them. -/
structure FittedClusteringModel where
  datapoints : List Point
  labels : List Int

/-- Modelled from the spec: fitting a coordinate clustering model labels
each input point with the cluster the wrapped algorithm assigns it. -/
def SKLearnCoordinateClustering.fit (m : SKLearnCoordinateClustering)
    (pts : List Point) : FittedClusteringModel :=
  { datapoints := pts, labels := pts.map (m.assignLabel pts) }

/-- Modelled from the spec: `PolygonAnnotatedCoordinates` is library code
not under src/; it holds coordinates together with ground-truth cluster
polygons over a selected region, embedded as the region membership test and
the per-point polygon label they induce. -/
structure PolygonAnnotatedCoordinates where
  coordinates : List Point
  inAnnotatedRegion : Point → Bool
  clusterLabel : Point → Int

/-- Modelled from the spec: `getCoordinatesLabels` restricts the coordinates
to the annotated region and returns them with one ground-truth label per
returned point. -/
def PolygonAnnotatedCoordinates.getCoordinatesLabels
    (p : PolygonAnnotatedCoordinates) : List Point × List Int :=
  let pts := p.coordinates.filter p.inAnnotatedRegion
  (pts, pts.map p.clusterLabel)

/-- Modelled from the spec: the unsupervised clustering evaluator holds the
coordinate dataset supplied at construction. -/
def ClusteringModelUnsupervisedEvaluator (coordinatesDF : List Point)
    (metrics : List Point → FittedClusteringModel → EvalStats) :
    FixedDatasetEvaluator (List Point) FittedClusteringModel EvalStats :=
  { dataset := coordinatesDF, computeMetrics := metrics }

/-- Modelled from the spec: the supervised clustering evaluator holds the
coordinates and the true labels supplied at construction. -/
def ClusteringModelSupervisedEvaluator (coordinates : List Point)
    (trueLabels : List Int)
    (metrics : List Point × List Int → FittedClusteringModel → EvalStats) :
    FixedDatasetEvaluator (List Point × List Int) FittedClusteringModel
      EvalStats :=
  { dataset := (coordinates, trueLabels), computeMetrics := metrics }

/-- Input/output data pair held by a vector-model evaluator, as built by
`InputOutputData(X, y)` in the intro notebook. -/
structure InputOutputData where
  X : DataFrame
  y : DataFrame

/-- Modelled from the spec: `createVectorModelEvaluator` builds an evaluator
holding the supplied input/output data; `isRegression` and `testFraction`
select the metric set and the held-out split, which the spec leaves to the
library, so they are absorbed into the metric computation argument. -/
def createVectorModelEvaluator (ioData : InputOutputData)
    (isRegression : Bool) (testFraction : ℚ)
    (computeMetrics : InputOutputData → CustomModel → EvalStats) :
    FixedDatasetEvaluator InputOutputData CustomModel EvalStats :=
  { dataset := ioData, computeMetrics := computeMetrics }

/-- Modelled from the spec: enumeration of the Cartesian product of the
candidate value lists of the parameter options, the first parameter varying
slowest. Each element assigns one candidate value to each parameter name. -/
def paramCombinations : List (String × List ℚ) → List (List (String × ℚ))
  | [] => [[]]
  | (k, vs) :: rest =>
    vs.flatMap fun v => (paramCombinations rest).map fun combo => (k, v) :: combo

/-- Modelled from the spec: `GridSearch` is library code not under src/; it
is constructed from a model factory, the dictionary of parameter options
and an optional csv results path, as in the clustering notebook. -/
structure GridSearch (M : Type) where
  modelFactory : List (String × ℚ) → M
  parameterOptions : List (String × List ℚ)
  csvResultsPath : Option String

/-- Row of a grid-search results table: the parameter values of one
combination together with the metric columns its evaluation produced. -/
abbrev GridSearchRow := List (String × ℚ) × EvalStats

/-- Outcome of a grid-search run: the results data frame and the files the
run persisted, each file content being the results table it holds. -/
structure GridSearchRunOutput where
  resultDf : List GridSearchRow
  writtenFiles : List (String × List GridSearchRow)
deriving DecidableEq

/-- Modelled from the spec: `GridSearch.run` instantiates the model factory
on every combination of the parameter options, scores each instance with
the evaluator, collects one results row per combination, and persists the
results table at the csv path when one was given. Sorting of the returned
frame by a metric column reorders rows only and is left out, as the spec
does not describe it. -/
def GridSearch.run {D M : Type} (gs : GridSearch M)
    (evaluator : FixedDatasetEvaluator D M EvalStats) : GridSearchRunOutput :=
  let rows := (paramCombinations gs.parameterOptions).map fun combo =>
    (combo, (evaluator.evalModel (gs.modelFactory combo)).2)
  { resultDf := rows
    writtenFiles :=
      match gs.csvResultsPath with
      | none => []
      | some p => [(p, rows)] }

/-- Tox environment: its name, its commands as argument vectors, and its
declared dependencies. -/
structure ToxEnv where
  name : String
  commands : List (List String)
  deps : List String
deriving DecidableEq, Repr

/-- Tox configuration: the envlist and the explicitly defined test
environments. -/
structure ToxConfig where
  envlist : List String
  environments : List ToxEnv
deriving DecidableEq, Repr

/-- First configuration contained in src/tox.ini: envlist py37 and docs,
a base testenv running pytest, and a docs env running sphinx-build. -/
def toxConfigFirst : ToxConfig :=
  { envlist := [("py37"), ("docs")]
    environments :=
      [ { name := ("testenv")
          commands := [[("pytest")]]
          deps := [] }
      , { name := ("docs")
          commands :=
            [ [("sphinx-build"), ("-b"), ("html"), ("-d"),
                ("{envtmpdir}/doctrees"), ("docs"), ("docs/_build/html")]
            , [("sphinx-build"), ("-b"), ("doctest"), ("-d"),
                ("{envtmpdir}/doctrees"), ("docs"), ("docs/_build/doctest")] ]
          deps := [] } ] }

/-- Second configuration contained in src/tox.ini: envlist py, docs and
report, with the py env running pytest under coverage, the docs env running
sphinx-build, and the report env producing the coverage badge. -/
def toxConfigSecond : ToxConfig :=
  { envlist := [("py"), ("docs"), ("report")]
    environments :=
      [ { name := ("py")
          commands :=
            [ [("coverage"), ("erase")]
            , [("pytest"), ("-n"), ("4"), ("--cov"), ("--cov-append"),
                ("--cov-report=term-missing"), ("tests")]
            , [("pytest"), ("-n"), ("4"), ("notebooks")] ]
          deps := [("pytest"), ("pytest-cov"), ("pytest-xdist"),
            ("jupyter==1.0.0"), ("nbconvert==5.6.1"), ("clearml==0.17.1"),
            ("-rrequirements.txt")] }
      , { name := ("docs")
          commands :=
            [ [("python"), ("build_scripts/update_docs.py")]
            , [("git"), ("add"), ("docs/*")]
            , [("sphinx-build"), ("-W"), ("-b"), ("html"), ("-d"),
                ("{envtmpdir}/doctrees"), ("docs"), ("docs/_build/html")]
            , [("sphinx-build"), ("-b"), ("doctest"), ("-d"),
                ("{envtmpdir}/doctrees"), ("docs"), ("docs/_build/doctest")] ]
          deps := [("Sphinx==3.2.1"), ("sphinxcontrib-websupport==1.2.4"),
            ("sphinx_rtd_theme"), ("nbsphinx"), ("ipython")] }
      , { name := ("report")
          commands :=
            [ [("coverage"), ("html")]
            , [("coverage-badge"), ("-o"), ("badges/coverage.svg"), ("-f")]
            , [("coverage"), ("erase")] ]
          deps := [("coverage"), ("coverage-badge")] } ] }

/-- Test whether a configuration lists an environment in its envlist and
defines it explicitly. -/
def ToxConfig.definesEnv (cfg : ToxConfig) (n : String) : Bool :=
  cfg.envlist.contains n && cfg.environments.any fun e => e.name == n

/-- Test whether the named environment of a configuration has a command
invoking the given program with the given argument present. -/
def ToxConfig.envRunsWithArg (cfg : ToxConfig) (n prog arg : String) : Bool :=
  cfg.environments.any fun e =>
    e.name == n && e.commands.any fun cmd =>
      cmd.head? == some prog && cmd.contains arg

/-- Test whether the named environment of a configuration has a command
invoking the given program. -/
def ToxConfig.envRunsProgram (cfg : ToxConfig) (n prog : String) : Bool :=
  cfg.environments.any fun e =>
    e.name == n && e.commands.any fun cmd => cmd.head? == some prog

/-- Witness data: a fitted tax feature generator with threshold 5. -/
def taxGenFitted : TaxFraudFeaturegen :=
  { TaxFraudFeaturegen.make ("tax") 12 with threshold := some 5 }

/-- Witness data: a small frame with a tax column, no value exceeding the
fitted threshold of `taxGenFitted`. -/
def taxFrameSmall : DataFrame :=
  { index := [0, 1, 2], cols := [(("tax"), [4, 5, 3])] }

/-- Witness data: a training frame for the tax feature generator, with an
odd number of rows so that the median is one of the values. -/
def taxTrainFrame : DataFrame :=
  { index := [0, 1, 2], cols := [(("tax"), [300, 200, 400])] }

/-- Witness data: a frame to generate features from after fitting. -/
def taxApplyFrame : DataFrame :=
  { index := [0, 1, 2], cols := [(("tax"), [250, 301, 500])] }

/-- Witness data: a normalisation covering the columns crim and age. -/
def dftCrimAge : DFTNormalisation :=
  { rules := [{ columns := [("crim"), ("age")]
                template := { transformer := none, skip := true } }]
    requireAllHandled := true }

/-- Witness data: a frame with a column the crim/age normalisation does not
cover. -/
def frameWithTax : DataFrame :=
  { index := [0], cols := [(("crim"), [1]), (("tax"), [2])] }

/-- Witness data: a frame fully covered by the crim/age normalisation. -/
def frameCrimAge : DataFrame :=
  { index := [0], cols := [(("crim"), [1]), (("age"), [2])] }

/-- Witness data: a grid search over two eps values writing its results. -/
def gridSearchSmall : GridSearch Nat :=
  { modelFactory := fun _ => 0
    parameterOptions := [(("eps"), [50, 150])]
    csvResultsPath := some ("out.csv") }

/-- Witness data: an evaluator returning a constant metric set. -/
def constEvaluator : FixedDatasetEvaluator Nat Nat EvalStats :=
  { dataset := 0, computeMetrics := fun _ _ => [(("numClusters"), 3)] }

theorem mapM_some_of_forall {α β : Type} (f : α → Option β) (g : α → β)
    (h : ∀ x, f x = some (g x)) (s : List α) :
    s.mapM f = some (s.map g) := by
  induction s with
  | nil => rfl
  | cons a l ih =>
    rw [List.mapM_cons, h a, ih]
    rfl

theorem mapM_getCol_fst (df : DataFrame) (l : List String)
    (cs : List (String × List ℚ))
    (h : (l.mapM fun c => (df.getCol c).map fun s => (c, s)) = some cs) :
    cs.map Prod.fst = l := by
  induction l generalizing cs with
  | nil =>
    simp only [List.mapM_nil, pure, Option.some.injEq] at h
    rw [← h]
    rfl
  | cons c l ih =>
    rw [List.mapM_cons] at h
    cases hc : df.getCol c with
    | none => rw [hc] at h; simp at h
    | some s =>
      rw [hc] at h
      cases hrest : (l.mapM fun c => (df.getCol c).map fun s => (c, s)) with
      | none => rw [hrest] at h; simp at h
      | some cs2 =>
        rw [hrest] at h
        simp at h
        rw [← h]
        simp [ih cs2 hrest]

theorem mem_paramCombinations (opts : List (String × List ℚ))
    (c : List (String × ℚ)) :
    c ∈ paramCombinations opts ↔
      List.Forall₂ (fun kv opt => kv.1 = opt.1 ∧ kv.2 ∈ opt.2) c opts := by
  induction opts generalizing c with
  | nil =>
    simp [paramCombinations, List.forall₂_nil_right_iff]
  | cons opt rest ih =>
    obtain ⟨k, vs⟩ := opt
    simp only [paramCombinations, List.mem_flatMap, List.mem_map]
    rw [List.forall₂_cons_right_iff]
    constructor
    · rintro ⟨v, hv, c2, hc2, rfl⟩
      exact ⟨(k, v), c2, ⟨rfl, hv⟩, (ih c2).mp hc2, rfl⟩
    · rintro ⟨⟨k1, v1⟩, c2, ⟨h1, h2⟩, htail, rfl⟩
      cases h1
      exact ⟨v1, h2, c2, (ih c2).mpr htail, rfl⟩

/-- C8: after `TaxFraudFeaturegen._fit(X, Y)` the threshold equals the median
of the tax column of `X`, and `_generate(df)` thereafter returns a frame with
the single tax column in which each value above the threshold is reduced by
`value_lied_about` and every other value is unchanged. -/
theorem taxFraudFeaturegen_fit_generate
    (g g2 : TaxFraudFeaturegen) (X df : DataFrame) (xs s : List ℚ)
    (hxs : X.getCol g.tax_column = some xs)
    (hfit : g._fit X = some g2)
    (hs : df.getCol g.tax_column = some s) :
    g2.threshold = median xs ∧
    g2.tax_column = g.tax_column ∧
    g2.value_lied_about = g.value_lied_about ∧
    ∀ t, g2.threshold = some t →
      g2._generate df = some
        { index := df.index
          cols := [(g.tax_column,
            s.map fun v => if t < v then v - g.value_lied_about else v)] } := by
  unfold TaxFraudFeaturegen._fit at hfit
  rw [hxs, Option.some_bind] at hfit
  cases hm : median xs with
  | none => rw [hm] at hfit; simp at hfit
  | some m =>
    rw [hm] at hfit
    simp at hfit
    subst hfit
    refine ⟨rfl, rfl, rfl, ?_⟩
    intro t ht
    have htm : m = t := Option.some.inj ht
    subst htm
    unfold TaxFraudFeaturegen._generate
    rw [show ({ g with threshold := some m } : TaxFraudFeaturegen).tax_column
        = g.tax_column from rfl, hs]
    have hpt : ∀ v : ℚ,
        ({ g with threshold := some m } :
          TaxFraudFeaturegen).compensate_for_fraud v =
        some (if m < v then v - g.value_lied_about else v) := by
      intro v
      rfl
    rw [Option.some_bind, mapM_some_of_forall _ _ hpt s]
    rfl

/-- C8 witness: fitting the default generator on tax values 300, 200, 400
sets the threshold to the median 300; generating from tax values 250, 301,
500 then yields 250, 289, 488. -/
theorem taxFraudFeaturegen_fit_generate_witness :
    ({ taxFraudFeaturegenDefault with threshold := some 300 } :
      TaxFraudFeaturegen)._generate taxApplyFrame =
      some { index := [0, 1, 2], cols := [(("tax"), [250, 289, 488])] } := by
  have h := taxFraudFeaturegen_fit_generate taxFraudFeaturegenDefault
    { taxFraudFeaturegenDefault with threshold := some 300 }
    taxTrainFrame taxApplyFrame [300, 200, 400] [250, 301, 500]
    (by decide) (by decide) (by decide)
  have h4 := h.2.2.2 300 (by decide)
  rw [h4]
  norm_num [taxApplyFrame, taxFraudFeaturegenDefault, TaxFraudFeaturegen.make]

/-- C9: with a fitted threshold and a non-negative `value_lied_about`,
`compensate_for_fraud` never increases a tax value and is the identity on
every value at most the threshold. -/
theorem compensate_for_fraud_bounded (g : TaxFraudFeaturegen) (t tax : ℚ)
    (hth : g.threshold = some t) (hv : 0 ≤ g.value_lied_about) :
    ∃ r, g.compensate_for_fraud tax = some r ∧ r ≤ tax ∧
      (tax ≤ t → r = tax) := by
  refine ⟨if t < tax then tax - g.value_lied_about else tax, ?_, ?_, ?_⟩
  · simp [TaxFraudFeaturegen.compensate_for_fraud, hth]
  · split
    · linarith
    · exact le_refl tax
  · intro htax
    rw [if_neg (not_lt.mpr htax)]

/-- C9 witness: on the fitted generator with threshold 5, the value 4 is
below the threshold, is not increased and passes through unchanged. -/
theorem compensate_for_fraud_bounded_witness :
    ∃ r, taxGenFitted.compensate_for_fraud 4 = some r ∧ r ≤ 4 ∧
      ((4 : ℚ) ≤ 5 → r = 4) :=
  compensate_for_fraud_bounded taxGenFitted 5 4 (by decide) (by decide)

/-- C7: the two feature generators of the intro notebook carry their attached
normalisation rule templates, and each generation step transforms an input
frame into a frame of one or more derived columns: the tax generator yields
exactly the tax column and the take-columns generator yields exactly its
configured columns. -/
theorem feature_generators_derive_columns :
    taxFraudFeaturegenDefault.normalisationRuleTemplate =
      { transformer := some SKLearnScaler.minMaxScaler, skip := false } ∧
    crime_age_featuregen.normalisationRuleTemplate =
      { transformer := none, skip := true } ∧
    crime_age_featuregen.columns = [("crim"), ("age")] ∧
    (∀ (g : TaxFraudFeaturegen) (df out : DataFrame),
      g._generate df = some out → out.colNames = [g.tax_column]) ∧
    (∀ (fg : FeatureGeneratorTakeColumns) (df out : DataFrame),
      fg.generate df = some out → out.colNames = fg.columns) := by
  refine ⟨rfl, rfl, rfl, ?_, ?_⟩
  · intro g df out h
    unfold TaxFraudFeaturegen._generate at h
    cases hc : df.getCol g.tax_column with
    | none => rw [hc] at h; simp at h
    | some s =>
      rw [hc, Option.some_bind] at h
      cases hm : s.mapM g.compensate_for_fraud with
      | none => rw [hm] at h; simp at h
      | some vals =>
        rw [hm] at h
        simp at h
        rw [← h]
        rfl
  · intro fg df out h
    unfold FeatureGeneratorTakeColumns.generate at h
    cases hc : (fg.columns.mapM fun c => (df.getCol c).map fun s => (c, s))
      with
    | none => rw [hc] at h; simp at h
    | some cs =>
      rw [hc] at h
      simp at h
      rw [← h]
      simpa [DataFrame.colNames] using mapM_getCol_fst df fg.columns cs hc

/-- C7 witness: the tax generator on a concrete frame yields the single tax
column, and the crim/age generator on a concrete frame yields its two
configured columns. -/
theorem feature_generators_derive_columns_witness :
    ({ index := [0, 1, 2], cols := [(("tax"), [4, 5, 3])] } :
      DataFrame).colNames = [taxGenFitted.tax_column] ∧
    ({ index := [0], cols := [(("crim"), [1]), (("age"), [2])] } :
      DataFrame).colNames = crime_age_featuregen.columns :=
  ⟨feature_generators_derive_columns.2.2.2.1 taxGenFitted taxFrameSmall
      { index := [0, 1, 2], cols := [(("tax"), [4, 5, 3])] } (by decide),
   feature_generators_derive_columns.2.2.2.2 crime_age_featuregen frameCrimAge
      { index := [0], cols := [(("crim"), [1]), (("age"), [2])] } (by decide)⟩

/-- C1: a grid search run evaluates exactly the Cartesian product of the
candidate value lists: the results hold one evaluation per product element,
each obtained by instantiating the factory on the combination and scoring it
with the evaluator, and a combination appears in the results precisely when
it picks one candidate value per configured parameter. -/
theorem gridSearch_run_cartesian (D M : Type) (gs : GridSearch M)
    (evaluator : FixedDatasetEvaluator D M EvalStats) :
    (gs.run evaluator).resultDf =
      ((paramCombinations gs.parameterOptions).map fun combo =>
        (combo, (evaluator.evalModel (gs.modelFactory combo)).2)) ∧
    ∀ combo : List (String × ℚ),
      (∃ stats, (combo, stats) ∈ (gs.run evaluator).resultDf) ↔
        List.Forall₂ (fun kv opt => kv.1 = opt.1 ∧ kv.2 ∈ opt.2) combo
          gs.parameterOptions := by
  refine ⟨rfl, ?_⟩
  intro combo
  rw [← mem_paramCombinations]
  constructor
  · rintro ⟨stats, hmem⟩
    simp only [GridSearch.run, List.mem_map] at hmem
    obtain ⟨c, hc, heq⟩ := hmem
    have hcc : c = combo := congrArg Prod.fst heq
    subst hcc
    exact hc
  · intro h
    exact ⟨(evaluator.evalModel (gs.modelFactory combo)).2,
      List.mem_map_of_mem _ h⟩

/-- C2: a normalisation with `requireAllHandled` set raises an error on a
frame containing a column no rule covers, and raises no error when every
column is covered by some rule. -/
theorem dftNormalisation_unhandled_error (dft : DFTNormalisation)
    (df : DataFrame) (hreq : dft.requireAllHandled = true) :
    ((∃ c ∈ df.colNames, ∀ r ∈ dft.rules, c ∉ r.columns) →
      ∃ msg, dft.apply df = Except.error msg) ∧
    ((∀ c ∈ df.colNames, ∃ r ∈ dft.rules, c ∈ r.columns) →
      dft.apply df = Except.ok df) := by
  constructor
  · rintro ⟨c, hc, hall⟩
    have hmem : c ∈ dft.unhandledColumns df := by
      rw [DFTNormalisation.unhandledColumns, List.mem_filter]
      refine ⟨hc, ?_⟩
      simp only [List.any_eq_true, decide_eq_true_eq, Bool.not_eq_true',
        List.any_eq_false]
      intro r hr
      simpa using hall r hr
    have hne : (dft.unhandledColumns df).isEmpty = false := by
      cases hu : dft.unhandledColumns df with
      | nil => rw [hu] at hmem; cases hmem
      | cons a l => rfl
    refine ⟨(", ").intercalate (dft.unhandledColumns df), ?_⟩
    rw [DFTNormalisation.apply]
    simp [hreq, hne]
  · intro hcov
    have hu : dft.unhandledColumns df = [] := by
      rw [DFTNormalisation.unhandledColumns]
      rw [List.filter_eq_nil_iff]
      intro c hc hb
      obtain ⟨r, hr, hcr⟩ := hcov c hc
      rw [Bool.not_eq_true'] at hb
      have h2 := List.any_eq_false.mp hb r hr
      simp at h2
      exact h2 hcr
    rw [DFTNormalisation.apply]
    simp [hu]

/-- C2 witness: with a rule covering only crim and age, a frame with a tax
column makes the normalisation error, and a frame with only crim and age
passes through without error. -/
theorem dftNormalisation_unhandled_error_witness :
    (∃ msg, dftCrimAge.apply frameWithTax = Except.error msg) ∧
    dftCrimAge.apply frameCrimAge = Except.ok frameCrimAge :=
  ⟨(dftNormalisation_unhandled_error dftCrimAge frameWithTax rfl).1
      (by decide),
   (dftNormalisation_unhandled_error dftCrimAge frameCrimAge rfl).2
      (by decide)⟩

/-- C3: an evaluator holds the fixed dataset supplied at construction, every
`evalModel` call computes the metric set from that stored dataset with the
stored metric computation, the evaluator state is unchanged by `evalModel`
so successive evaluations of different models use the very same dataset, and
the three evaluator constructors store exactly the dataset they were
given. -/
theorem evaluator_fixed_dataset_comparable (D M S : Type)
    (ev : FixedDatasetEvaluator D M S) (m1 m2 : M) :
    (ev.evalModel m1).1 = ev ∧
    (ev.evalModel m1).2 = ev.computeMetrics ev.dataset m1 ∧
    ((ev.evalModel m1).1.evalModel m2).2 = ev.computeMetrics ev.dataset m2 ∧
    (∀ (coords : List Point)
        (metrics : List Point → FittedClusteringModel → EvalStats),
      (ClusteringModelUnsupervisedEvaluator coords metrics).dataset =
        coords) ∧
    (∀ (coords : List Point) (trueLabels : List Int)
        (metrics : List Point × List Int → FittedClusteringModel →
          EvalStats),
      (ClusteringModelSupervisedEvaluator coords trueLabels metrics).dataset
        = (coords, trueLabels)) ∧
    (∀ (ioData : InputOutputData) (isRegression : Bool) (testFraction : ℚ)
        (f : InputOutputData → CustomModel → EvalStats),
      (createVectorModelEvaluator ioData isRegression testFraction
        f).dataset = ioData) :=
  ⟨rfl, rfl, rfl, fun _ _ => rfl, fun _ _ _ => rfl, fun _ _ _ _ => rfl⟩

/-- C4: with a csv results path configured, a grid-search run persists the
results table it returns at that path, with one row per evaluated parameter
combination, each row holding the parameter values of its combination and
the metric columns computed by the evaluator on the factory-built model. -/
theorem gridSearch_run_persists_results (D M : Type) (gs : GridSearch M)
    (evaluator : FixedDatasetEvaluator D M EvalStats) (p : String)
    (hp : gs.csvResultsPath = some p) :
    (gs.run evaluator).writtenFiles = [(p, (gs.run evaluator).resultDf)] ∧
    (gs.run evaluator).resultDf.length =
      (paramCombinations gs.parameterOptions).length ∧
    ∀ row ∈ (gs.run evaluator).resultDf,
      row.1 ∈ paramCombinations gs.parameterOptions ∧
      row.2 = (evaluator.evalModel (gs.modelFactory row.1)).2 := by
  refine ⟨?_, ?_, ?_⟩
  · rw [GridSearch.run]
    simp [hp]
  · rw [GridSearch.run]
    simp
  · intro row hrow
    rw [GridSearch.run] at hrow
    simp only [List.mem_map] at hrow
    obtain ⟨combo, hc, heq⟩ := hrow
    rw [← heq]
    exact ⟨hc, rfl⟩

/-- C4 witness: the two-value grid search writes its two-row results table
to the configured path. -/
theorem gridSearch_run_persists_results_witness :
    (gridSearchSmall.run constEvaluator).writtenFiles =
      [(("out.csv"), (gridSearchSmall.run constEvaluator).resultDf)] ∧
    (gridSearchSmall.run constEvaluator).resultDf.length =
      (paramCombinations gridSearchSmall.parameterOptions).length ∧
    ∀ row ∈ (gridSearchSmall.run constEvaluator).resultDf,
      row.1 ∈ paramCombinations gridSearchSmall.parameterOptions ∧
      row.2 = (constEvaluator.evalModel
        (gridSearchSmall.modelFactory row.1)).2 :=
  gridSearch_run_persists_results Nat Nat gridSearchSmall constEvaluator
    ("out.csv") rfl

/-- C5: the polygon-annotated ground truth returns one label per returned
coordinate, and a fitted clustering model assigns exactly one label per
input point. -/
theorem clustering_labels_match_point_count
    (p : PolygonAnnotatedCoordinates) (m : SKLearnCoordinateClustering)
    (pts : List Point) :
    (p.getCoordinatesLabels).2.length = (p.getCoordinatesLabels).1.length ∧
    (m.fit pts).datapoints = pts ∧
    (m.fit pts).labels.length = (m.fit pts).datapoints.length := by
  refine ⟨?_, rfl, ?_⟩
  · rw [PolygonAnnotatedCoordinates.getCoordinatesLabels]
    exact List.length_map _ _
  · rw [SKLearnCoordinateClustering.fit]
    exact List.length_map _ _

/-- C6: the second configuration in src/tox.ini defines the CI entry points
py, docs and report, where the py environment runs pytest with coverage,
the docs environment runs the Sphinx build, and the report environment
produces the coverage badge. -/
theorem tox_ci_entry_points :
    toxConfigSecond.envlist = [("py"), ("docs"), ("report")] ∧
    toxConfigSecond.definesEnv ("py") = true ∧
    toxConfigSecond.definesEnv ("docs") = true ∧
    toxConfigSecond.definesEnv ("report") = true ∧
    toxConfigSecond.envRunsWithArg ("py") ("pytest") ("--cov") = true ∧
    toxConfigSecond.envRunsProgram ("docs") ("sphinx-build") = true ∧
    toxConfigSecond.envRunsProgram ("report") ("coverage-badge") = true := by
  decide

/-- C10: the prediction of the custom model returns a frame with exactly one
column named nox, the same index as the input, and one predicted value per
input row. -/
theorem customModel_predict_nox (cm : CustomModel) (x : DataFrame) :
    (cm._predict x).index = x.index ∧
    ∃ vals, (cm._predict x).cols = [(("nox"), vals)] ∧
      vals.length = x.index.length := by
  refine ⟨rfl, cm.model.predict x, rfl, ?_⟩
  rw [MLPRegressor.predict, DataFrame.rows]
  rw [List.length_map, List.length_map, List.length_range]
